import Mathlib

/-!
Shallow embedding of the spatial layout and relationship-visualization engine
of the repository: the multi-factor similarity metric (`tagSimilarity.ts`),
the embedding cosine similarity (`embeddings.ts`), the similarity-based layout
generator (`similarityLayout.ts`), the density-adaptive normalizer
(`applyDensityAdaptiveScaling`), and the continuous physics simulation
(`physics.ts`).

Conventions of the embedding:
* JavaScript numbers that stay rational in every code path (tag counts,
  weights, timestamps) are modelled as `ℚ`; quantities that pass through
  `Math.sqrt` / `Math.cos` / `Math.sin` are modelled as `ℝ` (exact real
  arithmetic in place of IEEE doubles).
* A JavaScript computation that can produce `NaN` is modelled with `Option`:
  `none` stands for `NaN`, `some v` for the finite value `v`.  In
  `cosineSimilarity`, `NaN` arises exactly when the first vector is longer
  than the second (reading past the end of `b` yields `undefined`, and
  `undefined * x` is `NaN`), or when either accumulated norm is zero
  (the final division is then `0 / 0`).
* A JavaScript `Set` is modelled by `jsSet`: the list of elements in first
  insertion order with later duplicates dropped; a `Map` used for grouping is
  modelled by the list of keys in first-occurrence order together with a
  filter for each group.
* `Math.random()` is modelled by an arbitrary stream `rand : ℕ → ℝ`,
  consumed in call order.
-/

/-- Mirror of the `ContentItem` fields consumed by the similarity metric and
the layout generator (`types.ts`).  `created_at` is the epoch-millisecond
timestamp produced by `created_at.toDate().getTime()`; `none` models a
missing field. -/
structure ContentItem where
  id : String
  tags : Option (List String)
  aiTags : Option (List String)
  collectionId : Option String
  collection_ids : Option (List String)
  embedding : Option (List ℚ)
  averageColor : Option (ℚ × ℚ × ℚ)
  created_at : Option ℚ
deriving DecidableEq

instance : Inhabited ContentItem :=
  ⟨{ id := "", tags := none, aiTags := none, collectionId := none,
     collection_ids := none, embedding := none, averageColor := none,
     created_at := none }⟩

/-- Model of JavaScript `String.prototype.toLowerCase`: lower-case every
character. -/
def jsToLower (s : String) : String := ⟨s.data.map Char.toLower⟩

/-- A JavaScript `Set` built from a list: keeps the first occurrence of each
element, in insertion order. -/
def jsSet (l : List String) : List String :=
  l.foldl (fun acc x => if x ∈ acc then acc else acc ++ [x]) []

/-- Mirror of `SimilarityWeights` (`tagSimilarity.ts`). -/
structure SimilarityWeights where
  tags : ℚ
  collection : ℚ
  uploadDate : ℚ
  color : ℚ
deriving DecidableEq

/-- Mirror of `DEFAULT_WEIGHTS` (`tagSimilarity.ts`). -/
def DEFAULT_WEIGHTS : SimilarityWeights :=
  { tags := 0.3, collection := 0.5, uploadDate := 0.1, color := 0.1 }

/-- Mirror of `calculateTagSimilarity` (`tagSimilarity.ts`): Jaccard index of
the lower-cased tag sets, `0` if either list is empty. -/
def calculateTagSimilarity (tagsA tagsB : List String) : ℚ :=
  if tagsA.length = 0 ∨ tagsB.length = 0 then 0
  else
    let setA := jsSet (tagsA.map jsToLower)
    let setB := jsSet (tagsB.map jsToLower)
    let intersection := setA.filter (fun x => x ∈ setB)
    let union := jsSet (setA ++ setB)
    (intersection.length : ℚ) / (union.length : ℚ)

/-- Mirror of `calculateCollectionSimilarity` (`tagSimilarity.ts`):
`1` when the combined (secondary + primary) collection-id sets intersect,
`0` when they do not or when either set is empty. -/
def calculateCollectionSimilarity (itemA itemB : ContentItem) : ℚ :=
  let collectionsA := jsSet ((itemA.collection_ids.getD []) ++
    (match itemA.collectionId with | some c => [c] | none => []))
  let collectionsB := jsSet ((itemB.collection_ids.getD []) ++
    (match itemB.collectionId with | some c => [c] | none => []))
  if collectionsA.length = 0 ∨ collectionsB.length = 0 then 0
  else if collectionsA.any (fun c => c ∈ collectionsB) then 1 else 0

/-- Mirror of `calculateDateSimilarity` (`tagSimilarity.ts`): linear decay
from `1` at identical timestamps to `0` at thirty days apart. -/
def calculateDateSimilarity (itemA itemB : ContentItem) : ℚ :=
  match itemA.created_at, itemB.created_at with
  | some tA, some tB =>
    let diffMs := |tA - tB|
    let diffDays := diffMs / (1000 * 60 * 60 * 24)
    let maxDays : ℚ := 30
    max 0 (1 - diffDays / maxDays)
  | _, _ => 0

/-- Mirror of `calculateColorSimilarity` (`tagSimilarity.ts`):
`1 − dist/maxDist` in RGB space, `0` when either color is missing. -/
noncomputable def calculateColorSimilarity (itemA itemB : ContentItem) : ℝ :=
  match itemA.averageColor, itemB.averageColor with
  | some (r1, g1, b1), some (r2, g2, b2) =>
    let distance := Real.sqrt (((r1 : ℝ) - (r2 : ℝ)) ^ 2 +
      ((g1 : ℝ) - (g2 : ℝ)) ^ 2 + ((b1 : ℝ) - (b2 : ℝ)) ^ 2)
    let maxDistance := Real.sqrt (3 * (255 : ℝ) ^ 2)
    1 - distance / maxDistance
  | _, _ => 0

/-- Mirror of `getItemTags` (`tagSimilarity.ts`). -/
def getItemTags (item : ContentItem) : List String :=
  (item.aiTags.getD []) ++ (item.tags.getD [])

/-- Mirror of `calculateWeightedSimilarity` (`tagSimilarity.ts`); the
`weights` argument defaults to `DEFAULT_WEIGHTS` as in the source. -/
noncomputable def calculateWeightedSimilarity (itemA itemB : ContentItem)
    (weights : SimilarityWeights := DEFAULT_WEIGHTS) : ℝ :=
  let tagsA := getItemTags itemA
  let tagsB := getItemTags itemB
  let tagSim := calculateTagSimilarity tagsA tagsB
  let collectionSim := calculateCollectionSimilarity itemA itemB
  let dateSim := calculateDateSimilarity itemA itemB
  let colorSim := calculateColorSimilarity itemA itemB
  (tagSim : ℝ) * (weights.tags : ℝ) +
    (collectionSim : ℝ) * (weights.collection : ℝ) +
    (dateSim : ℝ) * (weights.uploadDate : ℝ) +
    colorSim * (weights.color : ℝ)

/-- Dot-product accumulator of `cosineSimilarity` (`embeddings.ts` loop);
`zip` truncates to the shorter vector. -/
def dotQ (a b : List ℚ) : ℚ :=
  ((a.zip b).map (fun p => p.1 * p.2)).sum

/-- Squared-norm accumulator of `cosineSimilarity` (`embeddings.ts` loop). -/
def sumSq (a : List ℚ) : ℚ :=
  (a.map (fun x => x * x)).sum

/-- Mirror of `cosineSimilarity` (`embeddings.ts`).  The loop runs over the
indices of `a`: when `a` is longer than `b` the accesses `b[i]` past the end
are `undefined` and poison the result with `NaN` (`none`); when either
accumulated norm is zero the final division is `0 / 0 = NaN` (`none`); in the
remaining cases the result is the finite real `dot / (√normA · √normB)`. -/
noncomputable def cosineSimilarity (a b : List ℚ) : Option ℝ :=
  if b.length < a.length then none
  else
    let dotProduct := dotQ a b
    let normA := sumSq a
    let normB := sumSq (b.take a.length)
    if normA = 0 ∨ normB = 0 then none
    else some ((dotProduct : ℝ) / (Real.sqrt (normA : ℝ) * Real.sqrt (normB : ℝ)))

/-- Mirror of `calculateEmbeddingSimilarity` (`similarityLayout.ts`):
returns `0` when either embedding is missing or zero-length, otherwise
delegates to `cosineSimilarity`. -/
noncomputable def calculateEmbeddingSimilarity (itemA itemB : ContentItem) : Option ℝ :=
  match itemA.embedding, itemB.embedding with
  | some ea, some eb =>
    if ea.length = 0 ∨ eb.length = 0 then some 0
    else cosineSimilarity ea eb
  | _, _ => some 0

/-! ### Basic facts about the similarity metric -/

lemma mem_jsSet_foldl (l : List String) : ∀ (acc : List String) (x : String),
    x ∈ l.foldl (fun acc x => if x ∈ acc then acc else acc ++ [x]) acc ↔ x ∈ acc ∨ x ∈ l := by
  induction l with
  | nil => intro acc x; simp
  | cons y l ih =>
    intro acc x
    simp only [List.foldl_cons, ih]
    by_cases hy : y ∈ acc
    · simp [hy]
      constructor
      · tauto
      · rintro (h | h | h) <;> try tauto
        subst h; tauto
    · simp [hy, List.mem_append]
      tauto

lemma nodup_jsSet_foldl (l : List String) : ∀ (acc : List String), acc.Nodup →
    (l.foldl (fun acc x => if x ∈ acc then acc else acc ++ [x]) acc).Nodup := by
  induction l with
  | nil => intro acc h; simpa
  | cons y l ih =>
    intro acc h
    simp only [List.foldl_cons]
    apply ih
    by_cases hy : y ∈ acc
    · simpa [hy]
    · simp [hy, List.nodup_append, h]

lemma mem_jsSet {l : List String} {x : String} : x ∈ jsSet l ↔ x ∈ l := by
  simp [jsSet, mem_jsSet_foldl]

lemma nodup_jsSet (l : List String) : (jsSet l).Nodup :=
  nodup_jsSet_foldl l [] List.nodup_nil

lemma tagSimilarity_bounds (tagsA tagsB : List String) :
    0 ≤ calculateTagSimilarity tagsA tagsB ∧ calculateTagSimilarity tagsA tagsB ≤ 1 := by
  unfold calculateTagSimilarity
  split
  · norm_num
  · rename_i hne
    set setA := jsSet (tagsA.map jsToLower) with hA
    set setB := jsSet (tagsB.map jsToLower) with hB
    set inter := setA.filter (fun x => x ∈ setB) with hI
    set union := jsSet (setA ++ setB) with hU
    have hsub : inter ⊆ union := by
      intro x hx
      rw [hU, mem_jsSet, List.mem_append]
      left
      exact List.mem_of_mem_filter hx
    have hnodup : inter.Nodup := List.Nodup.filter _ (nodup_jsSet _)
    have hlen : inter.length ≤ union.length :=
      (List.Nodup.subperm hnodup hsub).length_le
    have hApos : setA ≠ [] := by
      rcases tagsA with _ | ⟨t, ts⟩
      · simp at hne
      · intro h
        have : jsToLower t ∈ setA := by
          rw [hA, mem_jsSet]; simp
        rw [h] at this; simp at this
    have hUpos : 0 < union.length := by
      rcases List.exists_mem_of_ne_nil _ hApos with ⟨x, hx⟩
      have : x ∈ union := by
        rw [hU, mem_jsSet, List.mem_append]
        left; exact hx
      exact List.length_pos.2 (fun h => by rw [h] at this; simp at this)
    constructor
    · positivity
    · rw [div_le_one (by exact_mod_cast hUpos)]
      exact_mod_cast hlen

lemma collectionSimilarity_bounds (itemA itemB : ContentItem) :
    0 ≤ calculateCollectionSimilarity itemA itemB ∧
      calculateCollectionSimilarity itemA itemB ≤ 1 := by
  unfold calculateCollectionSimilarity
  repeat' split
  all_goals (dsimp only []; split_ifs <;> norm_num)

lemma dateSimilarity_bounds (itemA itemB : ContentItem) :
    0 ≤ calculateDateSimilarity itemA itemB ∧ calculateDateSimilarity itemA itemB ≤ 1 := by
  unfold calculateDateSimilarity
  rcases itemA.created_at with _ | tA <;> rcases itemB.created_at with _ | tB <;>
    simp only []
  · norm_num
  · norm_num
  · norm_num
  · constructor
    · exact le_max_left 0 _
    · apply max_le (by norm_num)
      have h1 : (0:ℚ) ≤ |tA - tB| / (1000 * 60 * 60 * 24) / 30 := by positivity
      linarith

/-- Color channels of an item, when present, lie in the RGB byte range. -/
def colorInRange (item : ContentItem) : Prop :=
  match item.averageColor with
  | some (r, g, b) => 0 ≤ r ∧ r ≤ 255 ∧ 0 ≤ g ∧ g ≤ 255 ∧ 0 ≤ b ∧ b ≤ 255
  | none => True

instance (item : ContentItem) : Decidable (colorInRange item) :=
  match h : item.averageColor with
  | some (r, g, b) => decidable_of_iff (0 ≤ r ∧ r ≤ 255 ∧ 0 ≤ g ∧ g ≤ 255 ∧ 0 ≤ b ∧ b ≤ 255)
      (by unfold colorInRange; rw [h])
  | none => isTrue (by unfold colorInRange; rw [h]; trivial)

lemma colorSimilarity_bounds (itemA itemB : ContentItem)
    (hA : colorInRange itemA) (hB : colorInRange itemB) :
    0 ≤ calculateColorSimilarity itemA itemB ∧ calculateColorSimilarity itemA itemB ≤ 1 := by
  unfold calculateColorSimilarity
  unfold colorInRange at hA hB
  rcases hcA : itemA.averageColor with _ | ⟨r1, g1, b1⟩ <;>
    rcases hcB : itemB.averageColor with _ | ⟨r2, g2, b2⟩ <;>
    rw [hcA] at hA <;> rw [hcB] at hB <;> simp only []
  · norm_num
  · norm_num
  · norm_num
  · obtain ⟨hr1a, hr1b, hg1a, hg1b, hb1a, hb1b⟩ := hA
    obtain ⟨hr2a, hr2b, hg2a, hg2b, hb2a, hb2b⟩ := hB
    set S : ℝ := ((r1 : ℝ) - (r2 : ℝ)) ^ 2 + ((g1 : ℝ) - (g2 : ℝ)) ^ 2 +
      ((b1 : ℝ) - (b2 : ℝ)) ^ 2 with hS
    have hSnn : (0:ℝ) ≤ S := by positivity
    have key : ∀ (u v : ℚ), 0 ≤ u → u ≤ 255 → 0 ≤ v → v ≤ 255 →
        ((u : ℝ) - (v : ℝ)) ^ 2 ≤ (255 : ℝ) ^ 2 := by
      intro u v hu1 hu2 hv1 hv2
      have h1 : (u : ℝ) ≤ 255 := by exact_mod_cast hu2
      have h2 : (0 : ℝ) ≤ (u : ℝ) := by exact_mod_cast hu1
      have h3 : (v : ℝ) ≤ 255 := by exact_mod_cast hv2
      have h4 : (0 : ℝ) ≤ (v : ℝ) := by exact_mod_cast hv1
      nlinarith
    have hSle : S ≤ 3 * (255 : ℝ) ^ 2 := by
      have h1 := key r1 r2 hr1a hr1b hr2a hr2b
      have h2 := key g1 g2 hg1a hg1b hg2a hg2b
      have h3 := key b1 b2 hb1a hb1b hb2a hb2b
      linarith
    have hmaxpos : (0:ℝ) < Real.sqrt (3 * (255:ℝ) ^ 2) := Real.sqrt_pos.2 (by norm_num)
    have hfrac : Real.sqrt S / Real.sqrt (3 * (255:ℝ) ^ 2) ≤ 1 := by
      rw [div_le_one hmaxpos]
      exact Real.sqrt_le_sqrt hSle
    have hfracnn : 0 ≤ Real.sqrt S / Real.sqrt (3 * (255:ℝ) ^ 2) :=
      div_nonneg (Real.sqrt_nonneg _) hmaxpos.le
    constructor <;> linarith

lemma sumSq_nonneg (a : List ℚ) : 0 ≤ sumSq a := by
  unfold sumSq
  induction a with
  | nil => simp
  | cons x xs ih => simp only [List.map_cons, List.sum_cons]; nlinarith [mul_self_nonneg x]

lemma list_cauchy_schwarz : ∀ (a b : List ℚ),
    (dotQ a b) ^ 2 ≤ sumSq a * sumSq (b.take a.length) := by
  intro a
  induction a with
  | nil => intro b; simp [dotQ, sumSq]
  | cons x a ih =>
    intro b
    cases b with
    | nil => simp [dotQ, sumSq]
    | cons y b =>
      have hd := ih b
      have hA := sumSq_nonneg a
      have hB := sumSq_nonneg (b.take a.length)
      simp only [dotQ, sumSq, List.zip_cons_cons, List.map_cons, List.sum_cons,
        List.length_cons, List.take_succ_cons] at *
      set d := ((a.zip b).map (fun p => p.1 * p.2)).sum with hdd
      set A := (a.map (fun x => x * x)).sum with hAA
      set B := ((b.take a.length).map (fun x => x * x)).sum with hBB
      rcases eq_or_lt_of_le hB with hB0 | hBpos
      · have hdz : d = 0 := by nlinarith
        rw [hdz, ← hB0]
        nlinarith [mul_nonneg hA (mul_self_nonneg y)]
      · nlinarith [sq_nonneg (x * B - y * d),
          mul_nonneg (add_nonneg (mul_self_nonneg y) hBpos.le) (sub_nonneg.2 hd), hBpos]

lemma cosineSimilarity_bounds (a b : List ℚ) (v : ℝ)
    (h : cosineSimilarity a b = some v) : -1 ≤ v ∧ v ≤ 1 := by
  unfold cosineSimilarity at h
  simp only [] at h
  split at h
  · exact absurd h (by simp)
  · rename_i hlen
    split at h
    · exact absurd h (by simp)
    · rename_i hnz
      push_neg at hnz
      simp only [Option.some.injEq] at h
      set A := sumSq a with hA
      set B := sumSq (b.take a.length) with hB
      have hApos : (0:ℚ) < A := lt_of_le_of_ne (sumSq_nonneg a) (Ne.symm hnz.1)
      have hBpos : (0:ℚ) < B := lt_of_le_of_ne (sumSq_nonneg _) (Ne.symm hnz.2)
      have hcs : (dotQ a b : ℝ) ^ 2 ≤ (A : ℝ) * (B : ℝ) := by
        have := list_cauchy_schwarz a b
        have h2 : ((dotQ a b ^ 2 : ℚ) : ℝ) ≤ ((A * B : ℚ) : ℝ) := by exact_mod_cast this
        push_cast at h2
        exact h2
      have hAr : (0:ℝ) < (A:ℝ) := by exact_mod_cast hApos
      have hBr : (0:ℝ) < (B:ℝ) := by exact_mod_cast hBpos
      have hden : 0 < Real.sqrt (A:ℝ) * Real.sqrt (B:ℝ) :=
        mul_pos (Real.sqrt_pos.2 hAr) (Real.sqrt_pos.2 hBr)
      have habs : |(dotQ a b : ℝ)| ≤ Real.sqrt (A:ℝ) * Real.sqrt (B:ℝ) := by
        rw [← Real.sqrt_sq_eq_abs, ← Real.sqrt_mul hAr.le]
        exact Real.sqrt_le_sqrt hcs
      have hva : |v| ≤ 1 := by
        rw [← h, abs_div, abs_of_pos hden, div_le_one hden]
        exact habs
      exact abs_le.1 hva

lemma embeddingSimilarity_bounds (itemA itemB : ContentItem) (v : ℝ)
    (h : calculateEmbeddingSimilarity itemA itemB = some v) : -1 ≤ v ∧ v ≤ 1 := by
  unfold calculateEmbeddingSimilarity at h
  split at h
  · split at h
    · simp only [Option.some.injEq] at h
      rw [← h]; norm_num
    · exact cosineSimilarity_bounds _ _ v h
  · simp only [Option.some.injEq] at h
    rw [← h]; norm_num

/-- Unfolding of `calculateWeightedSimilarity` into its four weighted
components. -/
lemma weightedSimilarity_eq (itemA itemB : ContentItem) (w : SimilarityWeights) :
    calculateWeightedSimilarity itemA itemB w =
      (calculateTagSimilarity (getItemTags itemA) (getItemTags itemB) : ℝ) * (w.tags : ℝ) +
      (calculateCollectionSimilarity itemA itemB : ℝ) * (w.collection : ℝ) +
      (calculateDateSimilarity itemA itemB : ℝ) * (w.uploadDate : ℝ) +
      calculateColorSimilarity itemA itemB * (w.color : ℝ) := rfl

/-! ### Concrete items used by the testable scenarios -/

/-- First item of the spec's concrete scenario: tags `["cat","pet"]`, a shared
collection, no embedding, no date, no color. -/
def catPetItem : ContentItem :=
  { id := "item-a", tags := some ["cat", "pet"], aiTags := none,
    collectionId := some "shared-collection", collection_ids := none,
    embedding := none, averageColor := none, created_at := none }

/-- Second item of the spec's concrete scenario: tags `["cat","animal"]`, the
same collection, no embedding, no date, no color. -/
def catAnimalItem : ContentItem :=
  { id := "item-b", tags := some ["cat", "animal"], aiTags := none,
    collectionId := some "shared-collection", collection_ids := none,
    embedding := none, averageColor := none, created_at := none }

lemma tagSim_scenario_eval :
    calculateTagSimilarity (getItemTags catPetItem) (getItemTags catAnimalItem) = 1 / 3 := by
  have e1 : getItemTags catPetItem = ["cat", "pet"] := rfl
  have e2 : getItemTags catAnimalItem = ["cat", "animal"] := rfl
  rw [e1, e2]
  have h1 : (jsSet ((["cat", "pet"] : List String).map jsToLower)).filter
      (fun x => x ∈ jsSet ((["cat", "animal"] : List String).map jsToLower)) = ["cat"] := by
    decide
  have h2 : jsSet ((jsSet ((["cat", "pet"] : List String).map jsToLower)) ++
      (jsSet ((["cat", "animal"] : List String).map jsToLower))) = ["cat", "pet", "animal"] := by
    decide
  unfold calculateTagSimilarity
  rw [if_neg (by decide)]
  simp only [h1, h2]
  norm_num

lemma collectionSim_scenario_eval :
    calculateCollectionSimilarity catPetItem catAnimalItem = 1 := by
  have h : jsSet ((catPetItem.collection_ids.getD []) ++ ["shared-collection"]) =
      ["shared-collection"] := by decide
  unfold calculateCollectionSimilarity
  rw [if_neg (by decide), if_pos (by decide)]

lemma weightedSim_scenario_eval :
    calculateWeightedSimilarity catPetItem catAnimalItem = 0.6 := by
  rw [weightedSimilarity_eq, tagSim_scenario_eval, collectionSim_scenario_eval]
  have hdate : calculateDateSimilarity catPetItem catAnimalItem = 0 := rfl
  have hcolor : calculateColorSimilarity catPetItem catAnimalItem = 0 := rfl
  rw [hdate, hcolor]
  push_cast
  norm_num [DEFAULT_WEIGHTS]

/-- Item with embedding `[1]` (and nothing else), for the cosine range
counterexample. -/
def oppositeEmbItemA : ContentItem :=
  { id := "emb-a", tags := none, aiTags := none, collectionId := none,
    collection_ids := none, embedding := some [1], averageColor := none,
    created_at := none }

/-- Item with embedding `[-1]` (and nothing else). -/
def oppositeEmbItemB : ContentItem :=
  { id := "emb-b", tags := none, aiTags := none, collectionId := none,
    collection_ids := none, embedding := some [-1], averageColor := none,
    created_at := none }

/-- Item with the all-zero embedding `[0]`: positive length, zero norm. -/
def zeroVectorItem : ContentItem :=
  { id := "emb-z", tags := none, aiTags := none, collectionId := none,
    collection_ids := none, embedding := some [0], averageColor := none,
    created_at := none }

/-- Item with the two-dimensional embedding `[1, 1]`. -/
def mismatchItemA : ContentItem :=
  { id := "emb-m1", tags := none, aiTags := none, collectionId := none,
    collection_ids := none, embedding := some [1, 1], averageColor := none,
    created_at := none }

/-- Item with the one-dimensional embedding `[1]`. -/
def mismatchItemB : ContentItem :=
  { id := "emb-m2", tags := none, aiTags := none, collectionId := none,
    collection_ids := none, embedding := some [1], averageColor := none,
    created_at := none }

/-! ### Claims C1, C2, C3, C7 -/

/-- Claim C1: for every pair of items, `calculateWeightedSimilarity` returns
exactly `tagSim·w_tag + collectionSim·w_collection + dateSim·w_date +
colorSim·w_color`, where the four component scores are those computed by the
component similarity functions on the same two items; and when the weights
argument is omitted the defaults (tag 0.3, collection 0.5, date 0.1,
color 0.1) are used. -/
theorem weightedSimilarity_formula_and_default (itemA itemB : ContentItem)
    (w : SimilarityWeights) :
    calculateWeightedSimilarity itemA itemB w =
      (calculateTagSimilarity (getItemTags itemA) (getItemTags itemB) : ℝ) * (w.tags : ℝ) +
      (calculateCollectionSimilarity itemA itemB : ℝ) * (w.collection : ℝ) +
      (calculateDateSimilarity itemA itemB : ℝ) * (w.uploadDate : ℝ) +
      calculateColorSimilarity itemA itemB * (w.color : ℝ) ∧
    calculateWeightedSimilarity itemA itemB = calculateWeightedSimilarity itemA itemB
      { tags := 0.3, collection := 0.5, uploadDate := 0.1, color := 0.1 } :=
  ⟨weightedSimilarity_eq itemA itemB w, rfl⟩

/-- Claim C2, counterexample: the embedding cosine similarity of the items
with embeddings `[1]` and `[-1]` is `-1`, which is not in `[0,1]`; so not
every component similarity lies in `[0,1]`. -/
theorem cosine_component_not_in_unit_interval :
    calculateEmbeddingSimilarity oppositeEmbItemA oppositeEmbItemB = some (-1) ∧
      ¬ (0 : ℝ) ≤ -1 := by
  constructor
  · unfold calculateEmbeddingSimilarity
    norm_num [oppositeEmbItemA, oppositeEmbItemB, cosineSimilarity, sumSq, dotQ]
  · norm_num

/-- Claim C2 (amended): for every pair of items whose average-color channels
lie in `[0,255]`, the tag, collection, date, and color similarities each lie
in `[0,1]`; the embedding cosine similarity, when it yields a value at all,
lies only in `[-1,1]` and can be negative. -/
theorem component_similarities_bounds (itemA itemB : ContentItem)
    (hA : colorInRange itemA) (hB : colorInRange itemB) :
    (0 ≤ calculateTagSimilarity (getItemTags itemA) (getItemTags itemB) ∧
      calculateTagSimilarity (getItemTags itemA) (getItemTags itemB) ≤ 1) ∧
    (0 ≤ calculateCollectionSimilarity itemA itemB ∧
      calculateCollectionSimilarity itemA itemB ≤ 1) ∧
    (0 ≤ calculateDateSimilarity itemA itemB ∧
      calculateDateSimilarity itemA itemB ≤ 1) ∧
    (0 ≤ calculateColorSimilarity itemA itemB ∧
      calculateColorSimilarity itemA itemB ≤ 1) ∧
    (∀ v : ℝ, calculateEmbeddingSimilarity itemA itemB = some v → -1 ≤ v ∧ v ≤ 1) :=
  ⟨tagSimilarity_bounds _ _, collectionSimilarity_bounds _ _, dateSimilarity_bounds _ _,
   colorSimilarity_bounds _ _ hA hB, fun v h => embeddingSimilarity_bounds _ _ v h⟩

/-- Witness for the amended C2 bounds, at the concrete scenario items (whose
colors are absent, hence trivially in range). -/
theorem component_similarities_bounds_witness :
    (0 ≤ calculateTagSimilarity (getItemTags catPetItem) (getItemTags catAnimalItem) ∧
      calculateTagSimilarity (getItemTags catPetItem) (getItemTags catAnimalItem) ≤ 1) ∧
    (0 ≤ calculateCollectionSimilarity catPetItem catAnimalItem ∧
      calculateCollectionSimilarity catPetItem catAnimalItem ≤ 1) ∧
    (0 ≤ calculateDateSimilarity catPetItem catAnimalItem ∧
      calculateDateSimilarity catPetItem catAnimalItem ≤ 1) ∧
    (0 ≤ calculateColorSimilarity catPetItem catAnimalItem ∧
      calculateColorSimilarity catPetItem catAnimalItem ≤ 1) ∧
    (∀ v : ℝ, calculateEmbeddingSimilarity catPetItem catAnimalItem = some v →
      -1 ≤ v ∧ v ≤ 1) :=
  component_similarities_bounds catPetItem catAnimalItem (by decide) (by decide)

/-- Claim C3, counterexample: in the spec's concrete scenario the weighted
score at default weights is `(1/3)·0.3 + 1·0.5 = 0.6`, not the claimed
`0.6667`. -/
theorem concrete_scenario_score_ne_claimed :
    calculateWeightedSimilarity catPetItem catAnimalItem = 0.6 ∧ (0.6 : ℝ) ≠ 0.6667 := by
  refine ⟨weightedSim_scenario_eval, by norm_num⟩

/-- Claim C3 (amended): for the two scenario items (shared collection, tags
`["cat","pet"]` and `["cat","animal"]`, no embedding/date/color data) the tag
similarity is `1/3` and the weighted score at default weights is `0.6`. -/
theorem concrete_scenario_values :
    calculateTagSimilarity (getItemTags catPetItem) (getItemTags catAnimalItem) = 1 / 3 ∧
    calculateWeightedSimilarity catPetItem catAnimalItem = 0.6 :=
  ⟨tagSim_scenario_eval, weightedSim_scenario_eval⟩

/-- Claim C7: the code does NOT guard the division in `cosineSimilarity`:
for the zero-norm embedding `[0]` the result is `0/0 = NaN` (modelled `none`)
rather than `0`, and for mismatched dimensionalities (`[1,1]` against `[1]`)
the out-of-bounds read makes the result `NaN` rather than `0`. -/
theorem embeddingSimilarity_nan_unguarded :
    calculateEmbeddingSimilarity zeroVectorItem zeroVectorItem = none ∧
    calculateEmbeddingSimilarity mismatchItemA mismatchItemB = none ∧
    (none : Option ℝ) ≠ some 0 := by
  refine ⟨?_, ?_, by simp⟩
  · unfold calculateEmbeddingSimilarity
    norm_num [zeroVectorItem, cosineSimilarity, sumSq, dotQ]
  · unfold calculateEmbeddingSimilarity
    norm_num [mismatchItemA, mismatchItemB, cosineSimilarity]

/-! ### Physics simulation (`physics.ts`) -/

/-- Mirror of `PhysicsNode` (`physics.ts`).  `pinned` models the optional
boolean (`undefined` is falsy, i.e. `false`). -/
structure PhysicsNode where
  id : String
  x : ℝ
  y : ℝ
  vx : ℝ
  vy : ℝ
  targetX : ℝ
  targetY : ℝ
  radius : ℝ
  mass : ℝ
  pinned : Bool
  collectionIds : Option (List String)
  tags : Option (List String)

/-- Mirror of `PhysicsConfig` (`physics.ts`). -/
structure PhysicsConfig where
  targetStrength : ℝ
  repulsionStrength : ℝ
  repulsionRadius : ℝ
  collisionEnabled : Bool
  damping : ℝ
  velocityThreshold : ℝ
  deltaTime : ℝ
  collectionAttractionStrength : ℝ
  tagAttractionStrength : ℝ

/-- Mirror of `DEFAULT_CONFIG` (`physics.ts`). -/
def DEFAULT_CONFIG : PhysicsConfig :=
  { targetStrength := 0.5, repulsionStrength := 1.2, repulsionRadius := 12,
    collisionEnabled := true, damping := 0.8, velocityThreshold := 0.001,
    deltaTime := 0.016, collectionAttractionStrength := 0.2,
    tagAttractionStrength := 0.05 }

/-- Mirror of the `gridCellSize` field (`physics.ts`), fixed at 10. -/
def gridCellSize : ℝ := 10

/-- State of a `PhysicsSimulation` instance: the node map (in insertion
order), the configuration, and the spatial grid left over from the last
tick.  The JS grid maps string keys `"cx,cy"` to id arrays; the pair of cell
indices is an equivalent injective key. -/
structure PhysicsSimulation where
  nodes : List PhysicsNode
  config : PhysicsConfig
  spatialGrid : ℤ × ℤ → List String

noncomputable section

open scoped Classical

/-- Mirror of `getCellKey` (`physics.ts`): discretized cell of a position. -/
noncomputable def getCellKey (x y : ℝ) : ℤ × ℤ :=
  (⌊x / gridCellSize⌋, ⌊y / gridCellSize⌋)

/-- Mirror of `buildSpatialGrid` (`physics.ts`): each cell holds, in node
insertion order, the ids of the nodes whose position falls in it. -/
noncomputable def buildSpatialGrid (nodes : List PhysicsNode) : ℤ × ℤ → List String :=
  fun c => (nodes.filter (fun n => getCellKey n.x n.y = c)).map (fun n => n.id)

/-- Mirror of `this.nodes.get(id)`: lookup of a node by id. -/
def lookupNode (nodes : List PhysicsNode) (id : String) : Option PhysicsNode :=
  nodes.find? (fun n => n.id = id)

/-- The 3×3 window of cell offsets visited by `getNeighbors`, in loop order
(`dx` outer, `dy` inner, both from −1 to 1). -/
def neighborOffsets : List (ℤ × ℤ) :=
  [(-1, -1), (-1, 0), (-1, 1), (0, -1), (0, 0), (0, 1), (1, -1), (1, 0), (1, 1)]

/-- Mirror of `getNeighbors` (`physics.ts`): all nodes found in the 3×3 block
of grid cells around the node's cell, excluding the node itself. -/
noncomputable def getNeighbors (nodes : List PhysicsNode) (grid : ℤ × ℤ → List String)
    (node : PhysicsNode) : List PhysicsNode :=
  let cellX := ⌊node.x / gridCellSize⌋
  let cellY := ⌊node.y / gridCellSize⌋
  neighborOffsets.flatMap (fun d =>
    (( grid (cellX + d.1, cellY + d.2)).filterMap (lookupNode nodes)).filter
      (fun m => m.id ≠ node.id))

/-- Mirror of `applyTargetAttraction` (`physics.ts`). -/
def applyTargetAttraction (cfg : PhysicsConfig) (node : PhysicsNode) : ℝ × ℝ :=
  let dx := node.targetX - node.x
  let dy := node.targetY - node.y
  (dx * cfg.targetStrength, dy * cfg.targetStrength)

/-- Mirror of `applyRepulsion` (`physics.ts`): linear-falloff repulsion inside
`repulsionRadius`, with a distance-zero guard at 0.01. -/
noncomputable def applyRepulsion (cfg : PhysicsConfig) (node other : PhysicsNode) : ℝ × ℝ :=
  let dx := node.x - other.x
  let dy := node.y - other.y
  let dist := Real.sqrt (dx * dx + dy * dy)
  if dist < cfg.repulsionRadius ∧ dist > 0.01 then
    let strength := cfg.repulsionStrength * (1 - dist / cfg.repulsionRadius)
    ((dx / dist) * strength, (dy / dist) * strength)
  else (0, 0)

/-- Mirror of `applyCollectionAttraction` (`physics.ts`): constant-magnitude
pull toward a neighbor sharing at least one collection id. -/
noncomputable def applyCollectionAttraction (cfg : PhysicsConfig)
    (node other : PhysicsNode) : ℝ × ℝ :=
  match node.collectionIds, other.collectionIds with
  | some cA, some cB =>
    if cA.length = 0 ∨ cB.length = 0 then (0, 0)
    else if (cA.filter (fun id => id ∈ cB)).length = 0 then (0, 0)
    else
      let dx := other.x - node.x
      let dy := other.y - node.y
      let dist := Real.sqrt (dx * dx + dy * dy)
      if dist > 0.01 then
        ((dx / dist) * cfg.collectionAttractionStrength,
         (dy / dist) * cfg.collectionAttractionStrength)
      else (0, 0)
  | _, _ => (0, 0)

/-- Mirror of `applyTagAttraction` (`physics.ts`): direction-only pull scaled
by the Jaccard similarity of the two nodes' tag sets. -/
noncomputable def applyTagAttraction (cfg : PhysicsConfig)
    (node other : PhysicsNode) : ℝ × ℝ :=
  match node.tags, other.tags with
  | some tA, some tB =>
    if tA.length = 0 ∨ tB.length = 0 then (0, 0)
    else
      let setA := jsSet (tA.map jsToLower)
      let setB := jsSet (tB.map jsToLower)
      let intersection := setA.filter (fun x => x ∈ setB)
      let union := jsSet (setA ++ setB)
      if intersection.length = 0 then (0, 0)
      else
        let similarity := (intersection.length : ℝ) / (union.length : ℝ)
        let dx := other.x - node.x
        let dy := other.y - node.y
        let dist := Real.sqrt (dx * dx + dy * dy)
        if dist > 0.01 then
          ((dx / dist) * (cfg.tagAttractionStrength * similarity),
           (dy / dist) * (cfg.tagAttractionStrength * similarity))
        else (0, 0)
  | _, _ => (0, 0)

/-- Force accumulated for one node during the force pass of `update`
(`physics.ts`): zero for a pinned node (the loop `continue`s), otherwise
target attraction plus repulsion, collection attraction, and tag attraction
from each spatial neighbor. -/
noncomputable def computeForce (cfg : PhysicsConfig) (nodes : List PhysicsNode)
    (grid : ℤ × ℤ → List String) (node : PhysicsNode) : ℝ × ℝ :=
  if node.pinned then (0, 0)
  else
    (getNeighbors nodes grid node).foldl
      (fun f neighbor =>
        if neighbor.id ≠ node.id then
          f + applyRepulsion cfg node neighbor +
            applyCollectionAttraction cfg node neighbor +
            applyTagAttraction cfg node neighbor
        else f)
      (applyTargetAttraction cfg node)

/-- Integration step of `update` (`physics.ts`) for one node: skipped when
pinned; otherwise velocity update, damping, snap-to-zero below the
threshold, then position update. -/
noncomputable def integrateNode (cfg : PhysicsConfig) (node : PhysicsNode)
    (f : ℝ × ℝ) : PhysicsNode :=
  if node.pinned then node
  else
    let vx := (node.vx + (f.1 / node.mass) * cfg.deltaTime) * cfg.damping
    let vy := (node.vy + (f.2 / node.mass) * cfg.deltaTime) * cfg.damping
    let speed := Real.sqrt (vx * vx + vy * vy)
    let vx := if speed < cfg.velocityThreshold then 0 else vx
    let vy := if speed < cfg.velocityThreshold then 0 else vy
    { node with
      vx := vx
      vy := vy
      x := node.x + vx * cfg.deltaTime
      y := node.y + vy * cfg.deltaTime }

/-- One pairwise step of `resolveCollisions` (`physics.ts`): positional
overlap correction (full correction to the free side when the other is
pinned, none when both are pinned) followed by the partial velocity bounce
for approaching nodes. -/
noncomputable def collidePair (a b : PhysicsNode) : PhysicsNode × PhysicsNode :=
  let dx := b.x - a.x
  let dy := b.y - a.y
  let dist := Real.sqrt (dx * dx + dy * dy)
  let minDist := a.radius + b.radius
  if dist < minDist ∧ dist > 0.01 then
    let overlap := minDist - dist
    let nx := dx / dist
    let ny := dy / dist
    let moved :=
      if a.pinned = false ∧ b.pinned = false then
        ({ a with x := a.x - nx * overlap * 0.5, y := a.y - ny * overlap * 0.5 },
         { b with x := b.x + nx * overlap * 0.5, y := b.y + ny * overlap * 0.5 })
      else if a.pinned = false ∧ b.pinned = true then
        ({ a with x := a.x - nx * overlap, y := a.y - ny * overlap }, b)
      else if a.pinned = true ∧ b.pinned = false then
        (a, { b with x := b.x + nx * overlap, y := b.y + ny * overlap })
      else (a, b)
    let a1 := moved.1
    let b1 := moved.2
    if a1.pinned = false ∨ b1.pinned = false then
      let relVelX := a1.vx - b1.vx
      let relVelY := a1.vy - b1.vy
      let velAlongNormal := relVelX * nx + relVelY * ny
      if velAlongNormal < 0 then
        let bounce : ℝ := 0.5
        let a2 := if a1.pinned = false then
            { a1 with
              vx := a1.vx - velAlongNormal * nx * bounce
              vy := a1.vy - velAlongNormal * ny * bounce }
          else a1
        let b2 := if b1.pinned = false then
            { b1 with
              vx := b1.vx + velAlongNormal * nx * bounce
              vy := b1.vy + velAlongNormal * ny * bounce }
          else b1
        (a2, b2)
      else (a1, b1)
    else (a1, b1)
  else (a, b)

/-- The list of index pairs `(i, j)` with `i < j < n`, in the order of the
double loop of `resolveCollisions`. -/
def pairIndices (n : ℕ) : List (ℕ × ℕ) :=
  (List.range n).flatMap (fun i => ((List.range n).filter (fun j => i < j)).map (fun j => (i, j)))

/-- Mirror of `resolveCollisions` (`physics.ts`): sequential pairwise overlap
correction over the node array. -/
noncomputable def resolveCollisions (nodes : List PhysicsNode) : List PhysicsNode :=
  (pairIndices nodes.length).foldl
    (fun arr ij =>
      match arr.get? ij.1, arr.get? ij.2 with
      | some a, some b =>
        let p := collidePair a b
        (arr.set ij.1 p.1).set ij.2 p.2
      | _, _ => arr)
    nodes

/-- Mirror of `update` (`physics.ts`): early return on an empty node set;
otherwise rebuild the spatial grid, accumulate forces from current
positions, integrate all free nodes, and resolve collisions if enabled. -/
noncomputable def update (sim : PhysicsSimulation) : PhysicsSimulation :=
  if sim.nodes.length = 0 then sim
  else
    let grid := buildSpatialGrid sim.nodes
    let moved := sim.nodes.map (fun node =>
      integrateNode sim.config node (computeForce sim.config sim.nodes grid node))
    let final := if sim.config.collisionEnabled then resolveCollisions moved else moved
    { sim with nodes := final, spatialGrid := grid }

end

/-! ### Facts about the physics simulation -/

lemma collidePair_fst_of_pinned (a b : PhysicsNode) (h : a.pinned = true) :
    (collidePair a b).1 = a := by
  unfold collidePair
  dsimp only []
  split_ifs <;> simp_all

lemma collidePair_snd_of_pinned (a b : PhysicsNode) (h : b.pinned = true) :
    (collidePair a b).2 = b := by
  unfold collidePair
  dsimp only []
  split_ifs <;> simp_all

lemma foldl_preserves {α β : Type} (P : β → Prop) (f : β → α → β) :
    ∀ (l : List α) (b : β), P b → (∀ b a, P b → P (f b a)) → P (l.foldl f b) := by
  intro l
  induction l with
  | nil => intro b hb _; simpa
  | cons x xs ih =>
    intro b hb hstep
    simp only [List.foldl_cons]
    exact ih (f b x) (hstep b x hb) hstep

lemma resolveCollisions_pinned (nodes : List PhysicsNode) (i : ℕ) (n : PhysicsNode)
    (h : nodes.get? i = some n) (hp : n.pinned = true) :
    (resolveCollisions nodes).get? i = some n := by
  unfold resolveCollisions
  refine foldl_preserves (fun arr => arr.get? i = some n) _ _ nodes h ?_
  intro arr ij hinv
  rcases hpq : arr.get? ij.1 with _ | a
  · simpa [hpq] using hinv
  rcases hq : arr.get? ij.2 with _ | b
  · simpa [hpq, hq] using hinv
  simp only [hpq, hq]
  by_cases h2 : i = ij.2
  · have hlt : ij.2 < arr.length := by
      by_contra hge
      rw [List.get?_eq_none.2 (le_of_not_lt hge)] at hq
      exact Option.noConfusion hq
    have hb : b = n := by
      rw [h2] at hinv
      rw [hinv] at hq
      exact (Option.some_inj.1 hq).symm
    rw [h2, List.get?_set_eq_of_lt _ (by simpa using hlt), hb,
      collidePair_snd_of_pinned _ _ hp]
  · rw [List.get?_set_ne _ _ (fun hh => h2 hh.symm)]
    by_cases h1 : i = ij.1
    · have hlt : ij.1 < arr.length := by
        by_contra hge
        rw [List.get?_eq_none.2 (le_of_not_lt hge)] at hpq
        exact Option.noConfusion hpq
      have ha : a = n := by
        rw [h1] at hinv
        rw [hinv] at hpq
        exact (Option.some_inj.1 hpq).symm
      rw [h1, List.get?_set_eq_of_lt _ hlt, ha, collidePair_fst_of_pinned _ _ hp]
    · rw [List.get?_set_ne _ _ (fun hh => h1 hh.symm)]
      exact hinv

lemma integrateNode_of_pinned (cfg : PhysicsConfig) (n : PhysicsNode) (f : ℝ × ℝ)
    (hp : n.pinned = true) : integrateNode cfg n f = n := by
  unfold integrateNode
  rw [if_pos hp]

/-- Claim C4: for every node whose pinned flag is true, one call to the
simulation's `update` (tick) leaves that node exactly unchanged — in
particular its position `(x, y)` — no matter what forces other nodes would
exert on it, including during collision resolution. -/
theorem pinned_node_unchanged_by_update (sim : PhysicsSimulation) (i : ℕ)
    (n : PhysicsNode) (h : sim.nodes.get? i = some n) (hp : n.pinned = true) :
    (update sim).nodes.get? i = some n := by
  unfold update
  split
  · rename_i hlen
    exact h
  · rename_i hlen
    dsimp only []
    have hmap : (sim.nodes.map (fun node =>
        integrateNode sim.config node
          (computeForce sim.config sim.nodes (buildSpatialGrid sim.nodes) node))).get? i =
        some n := by
      rw [List.get?_map, h]
      simp [integrateNode_of_pinned _ _ _ hp]
    split
    · exact resolveCollisions_pinned _ i n hmap hp
    · exact hmap

/-- A pinned node with concrete data, for the C4 witness. -/
def pinnedDemoNode : PhysicsNode :=
  { id := "pinned-demo", x := 0, y := 0, vx := 1, vy := 2, targetX := 50,
    targetY := 50, radius := 5, mass := 1, pinned := true,
    collectionIds := some ["c"], tags := some ["t"] }

/-- A free node overlapping the pinned one, for the C4 witness. -/
def freeDemoNode : PhysicsNode :=
  { id := "free-demo", x := 1, y := 0, vx := 0, vy := 0, targetX := -10,
    targetY := 0, radius := 5, mass := 1, pinned := false,
    collectionIds := some ["c"], tags := some ["t"] }

/-- Simulation state holding the two demo nodes, with leftover empty grid. -/
def demoSim : PhysicsSimulation :=
  { nodes := [pinnedDemoNode, freeDemoNode], config := DEFAULT_CONFIG,
    spatialGrid := fun _ => [] }

/-- Witness for C4: the overlapped pinned node survives a tick of the
two-node simulation unchanged. -/
theorem pinned_node_unchanged_by_update_witness :
    (update demoSim).nodes.get? 0 = some pinnedDemoNode :=
  pinned_node_unchanged_by_update demoSim 0 pinnedDemoNode rfl rfl

/-- Claim C10: calling `update` (tick) when the node set is empty is a no-op:
the simulation state — node map, spatial grid, and configuration — is
returned exactly as it was. -/
theorem update_empty_is_noop (sim : PhysicsSimulation) (h : sim.nodes = []) :
    update sim = sim := by
  unfold update
  rw [h]
  simp

/-- Empty simulation state for the C10 witness. -/
def emptySim : PhysicsSimulation :=
  { nodes := [], config := DEFAULT_CONFIG, spatialGrid := fun _ => [] }

/-- Witness for C10: `update` of a concrete empty simulation is itself. -/
theorem update_empty_is_noop_witness : update emptySim = emptySim :=
  update_empty_is_noop emptySim rfl

lemma getNeighbors_cell_window (nodes : List PhysicsNode) (node m : PhysicsNode)
    (hnodup : (nodes.map (fun n => n.id)).Nodup)
    (hm : m ∈ getNeighbors nodes (buildSpatialGrid nodes) node) :
    |⌊m.x / gridCellSize⌋ - ⌊node.x / gridCellSize⌋| ≤ 1 ∧
    |⌊m.y / gridCellSize⌋ - ⌊node.y / gridCellSize⌋| ≤ 1 := by
  unfold getNeighbors at hm
  simp only [List.mem_flatMap, List.mem_filter, List.mem_filterMap] at hm
  obtain ⟨d, hd, ⟨⟨id, hid, hlook⟩, _⟩⟩ := hm
  unfold buildSpatialGrid at hid
  simp only [List.mem_map, List.mem_filter] at hid
  obtain ⟨n', ⟨hn'mem, hn'cell⟩, hn'id⟩ := hid
  have hmmem : m ∈ nodes := List.mem_of_find?_eq_some hlook
  have hmid : m.id = id := by
    have := List.find?_some hlook
    simpa using this
  have hmn' : m = n' :=
    List.inj_on_of_nodup_map hnodup hmmem hn'mem (by rw [hmid, hn'id])
  have hcell : getCellKey m.x m.y = (⌊node.x / gridCellSize⌋ + d.1, ⌊node.y / gridCellSize⌋ + d.2) := by
    rw [hmn']
    exact of_decide_eq_true hn'cell
  unfold getCellKey at hcell
  have hx : ⌊m.x / gridCellSize⌋ = ⌊node.x / gridCellSize⌋ + d.1 := congrArg Prod.fst hcell
  have hy : ⌊m.y / gridCellSize⌋ = ⌊node.y / gridCellSize⌋ + d.2 := congrArg Prod.snd hcell
  have hdrange : |d.1| ≤ 1 ∧ |d.2| ≤ 1 := by
    unfold neighborOffsets at hd
    simp only [List.mem_cons, List.not_mem_nil, or_false] at hd
    rcases hd with h | h | h | h | h | h | h | h | h <;> subst h <;> decide
  constructor
  · rw [hx]; simpa using hdrange.1
  · rw [hy]; simpa using hdrange.2

/-- Free node at `x = 9.5` (grid cell 0), target equal to its position. -/
def cellDemoA : PhysicsNode :=
  { id := "cell-a", x := 9.5, y := 0, vx := 0, vy := 0, targetX := 9.5,
    targetY := 0, radius := 1, mass := 1, pinned := false,
    collectionIds := none, tags := none }

/-- Free node at `x = 20.5` (grid cell 2): Euclidean distance 11 from
`cellDemoA`, inside the default repulsion radius 12, but two grid cells
away. -/
def cellDemoB : PhysicsNode :=
  { id := "cell-b", x := 20.5, y := 0, vx := 0, vy := 0, targetX := 20.5,
    targetY := 0, radius := 1, mass := 1, pinned := false,
    collectionIds := none, tags := none }

lemma cellDemo_neighbors_empty :
    getNeighbors [cellDemoA, cellDemoB] (buildSpatialGrid [cellDemoA, cellDemoB])
      cellDemoA = [] := by
  have f1 : ⌊(9.5 : ℝ) / 10⌋ = 0 := by
    rw [Int.floor_eq_iff] <;> norm_num
  have f2 : ⌊(20.5 : ℝ) / 10⌋ = 2 := by
    rw [Int.floor_eq_iff] <;> norm_num
  have f3 : ⌊(0 : ℝ) / 10⌋ = 0 := by norm_num
  simp only [getNeighbors, buildSpatialGrid, getCellKey, neighborOffsets, lookupNode,
    cellDemoA, cellDemoB, gridCellSize, f1, f2, f3]
  norm_num [lookupNode, List.find?]

lemma cellDemo_dist_eq : Real.sqrt ((cellDemoA.x - cellDemoB.x) * (cellDemoA.x - cellDemoB.x) +
    (cellDemoA.y - cellDemoB.y) * (cellDemoA.y - cellDemoB.y)) = 11 := by
  have h : (cellDemoA.x - cellDemoB.x) * (cellDemoA.x - cellDemoB.x) +
      (cellDemoA.y - cellDemoB.y) * (cellDemoA.y - cellDemoB.y) = (11 : ℝ) ^ 2 := by
    simp only [cellDemoA, cellDemoB]
    norm_num
  rw [h, Real.sqrt_sq (by norm_num)]

/-- Claim C9: during a tick, repulsion and the two attraction forces are only
ever gathered from nodes whose spatial-grid cells are at most one cell apart
in each axis (cell size 10); and a pair of nodes in more distant cells exerts
no force even when within the default repulsion radius 12: the concrete
free nodes at `x = 9.5` and `x = 20.5` are 11 < 12 apart and would repel each
other, yet the accumulated force on the first is exactly the (zero) target
attraction, because the second is not among its spatial neighbors. -/
theorem forces_only_within_cell_window :
    (∀ (nodes : List PhysicsNode) (node m : PhysicsNode),
      (nodes.map (fun n => n.id)).Nodup →
      m ∈ getNeighbors nodes (buildSpatialGrid nodes) node →
      |⌊m.x / gridCellSize⌋ - ⌊node.x / gridCellSize⌋| ≤ 1 ∧
      |⌊m.y / gridCellSize⌋ - ⌊node.y / gridCellSize⌋| ≤ 1) ∧
    (Real.sqrt ((cellDemoA.x - cellDemoB.x) * (cellDemoA.x - cellDemoB.x) +
        (cellDemoA.y - cellDemoB.y) * (cellDemoA.y - cellDemoB.y)) <
      DEFAULT_CONFIG.repulsionRadius ∧
     applyRepulsion DEFAULT_CONFIG cellDemoA cellDemoB ≠ (0, 0) ∧
     computeForce DEFAULT_CONFIG [cellDemoA, cellDemoB]
       (buildSpatialGrid [cellDemoA, cellDemoB]) cellDemoA = (0, 0)) := by
  refine ⟨fun nodes node m h hm => getNeighbors_cell_window nodes node m h hm, ?_, ?_, ?_⟩
  · rw [cellDemo_dist_eq]
    norm_num [DEFAULT_CONFIG]
  · unfold applyRepulsion
    rw [if_pos]
    · have hx : cellDemoA.x - cellDemoB.x = (-11 : ℝ) := by
        simp only [cellDemoA, cellDemoB]; norm_num
      rw [cellDemo_dist_eq]
      simp only [hx, DEFAULT_CONFIG, Prod.mk.injEq]
      intro hcon
      norm_num at hcon
    · rw [cellDemo_dist_eq]
      norm_num [DEFAULT_CONFIG]
  · unfold computeForce
    rw [if_neg (by simp [cellDemoA])]
    rw [cellDemo_neighbors_empty]
    simp only [List.foldl_nil]
    unfold applyTargetAttraction
    simp only [cellDemoA]
    norm_num

/-- Witness for C9's cell-window bound: in a two-node simulation with both
nodes in grid cell `(0,0)`, the free node is a spatial neighbor of the pinned
one and its cell offsets are within 1. -/
theorem forces_only_within_cell_window_witness :
    |⌊freeDemoNode.x / gridCellSize⌋ - ⌊pinnedDemoNode.x / gridCellSize⌋| ≤ 1 ∧
    |⌊freeDemoNode.y / gridCellSize⌋ - ⌊pinnedDemoNode.y / gridCellSize⌋| ≤ 1 := by
  refine forces_only_within_cell_window.1 [pinnedDemoNode, freeDemoNode]
    pinnedDemoNode freeDemoNode (by decide) ?_
  have f0 : ⌊(0 : ℝ) / 10⌋ = 0 := by norm_num
  have f1 : ⌊(1 : ℝ) / 10⌋ = 0 := by
    rw [Int.floor_eq_iff] <;> norm_num
  simp only [getNeighbors, buildSpatialGrid, getCellKey, neighborOffsets, lookupNode,
    pinnedDemoNode, freeDemoNode, gridCellSize, f0, f1]
  norm_num [lookupNode, List.find?]
  exact ⟨rfl, by decide⟩

/-! ### Similarity-based layout generator (`similarityLayout.ts`) -/

/-- A 2D point `{x, y}`. -/
structure Point where
  x : ℝ
  y : ℝ

instance : Inhabited Point := ⟨⟨0, 0⟩⟩

/-- An entry of the mini-simulation's `clusterPositions` array. -/
structure ClusterPos where
  x : ℝ
  y : ℝ
  vx : ℝ
  vy : ℝ

instance : Inhabited ClusterPos := ⟨⟨0, 0, 0, 0⟩⟩

/-- Center of the collection with the given index on the layout spiral
(`similarityLayout.ts`): angle `index · 2.4`, radius `15 + √index · 8`. -/
noncomputable def collectionCenter (index : ℕ) : Point :=
  let angle : ℝ := (index : ℝ) * 2.4
  let radius : ℝ := 15 + Real.sqrt (index : ℝ) * 8
  ⟨Real.cos angle * radius, Real.sin angle * radius⟩

/-- Cluster radius of a collection with `count` items:
`min(12, 4 + count·0.3)`. -/
noncomputable def clusterRadiusOf (count : ℕ) : ℝ :=
  min 12 (4 + (count : ℝ) * 0.3)

/-- Keys of the `collectionMap` grouping (`similarityLayout.ts`): primary
collection ids in order of first occurrence. -/
def collectionKeysOf (items : List ContentItem) : List String :=
  jsSet (items.filterMap (fun it => it.collectionId))

/-- The group of a primary-collection key: the items whose `collectionId` is
that key, in input order (the order they are pushed into the map). -/
def primaryGroup (items : List ContentItem) (k : String) : List ContentItem :=
  items.filter (fun it => it.collectionId = some k)

/-- The items with no primary collection (`noCollection` array). -/
def noCollectionOf (items : List ContentItem) : List ContentItem :=
  items.filter (fun it => it.collectionId = none)

/-- Initial cluster positions: small random jitter around the collection
center, two `Math.random()` draws per item (x then y), stream counter `k`. -/
noncomputable def clusterInit (rand : ℕ → ℝ) (k : ℕ) (c : Point)
    (clusterRadius : ℝ) (count : ℕ) : List ClusterPos :=
  (List.range count).map (fun i =>
    { x := c.x + (rand (k + 2 * i) - 0.5) * clusterRadius * 0.5
      y := c.y + (rand (k + 2 * i + 1) - 0.5) * clusterRadius * 0.5
      vx := 0
      vy := 0 })

/-- Inner-loop body of the mini force simulation for a pair `(i, j)` with
`i < j`: similarity attraction above the 0.15 threshold (skipped when the
combined similarity is `NaN`), then inverse-square repulsion below distance
5; forces are accumulated symmetrically into slots `i` and `j`. -/
noncomputable def clusterPairUpdate (citems : List ContentItem)
    (ps : List ClusterPos) (fs : List (ℝ × ℝ)) (i j : ℕ) : List (ℝ × ℝ) :=
  let a := ps.getD i default
  let b := ps.getD j default
  let dx := b.x - a.x
  let dy := b.y - a.y
  let dist := Real.sqrt (dx * dx + dy * dy) + 0.01
  let itemI := citems.getD i default
  let itemJ := citems.getD j default
  let tagSim := calculateTagSimilarity (getItemTags itemI) (getItemTags itemJ)
  let fs1 :=
    match calculateEmbeddingSimilarity itemI itemJ with
    | some e =>
      let combinedSim := e * 0.7 + (tagSim : ℝ) * 0.3
      if combinedSim > 0.15 then
        let attraction := combinedSim * 0.4
        let fx := (dx / dist) * attraction * dist
        let fy := (dy / dist) * attraction * dist
        let fi := fs.getD i (0, 0)
        let fj := fs.getD j (0, 0)
        (fs.set i (fi.1 + fx, fi.2 + fy)).set j (fj.1 - fx, fj.2 - fy)
      else fs
    | none => fs
  if dist < 5 then
    let repulsion := 2.0 / (dist * dist)
    let fx := (dx / dist) * repulsion
    let fy := (dy / dist) * repulsion
    let fi := fs1.getD i (0, 0)
    let fj := fs1.getD j (0, 0)
    (fs1.set i (fi.1 - fx, fi.2 - fy)).set j (fj.1 + fx, fj.2 + fy)
  else fs1

/-- Per-node centering pull: once a node is farther than the cluster radius
from the collection center, pull it back with magnitude 0.5. -/
noncomputable def clusterCenterPull (c : Point) (clusterRadius : ℝ)
    (ps : List ClusterPos) (fs : List (ℝ × ℝ)) (i : ℕ) : List (ℝ × ℝ) :=
  let a := ps.getD i default
  let toCenterX := c.x - a.x
  let toCenterY := c.y - a.y
  let centerDist := Real.sqrt (toCenterX * toCenterX + toCenterY * toCenterY)
  if centerDist > clusterRadius then
    let fi := fs.getD i (0, 0)
    fs.set i (fi.1 + (toCenterX / centerDist) * 0.5, fi.2 + (toCenterY / centerDist) * 0.5)
  else fs

/-- Force pass of one iteration of the mini simulation, in source loop order:
outer `i`, inner `j = i+1…n−1`, then the center pull for `i`. -/
noncomputable def clusterForces (citems : List ContentItem) (c : Point)
    (clusterRadius : ℝ) (ps : List ClusterPos) : List (ℝ × ℝ) :=
  let n := citems.length
  (List.range n).foldl
    (fun fs i =>
      clusterCenterPull c clusterRadius ps
        (((List.range n).filter (fun j => i < j)).foldl
          (fun fs j => clusterPairUpdate citems ps fs i j) fs)
        i)
    (List.replicate n ((0 : ℝ), (0 : ℝ)))

/-- One iteration of the mini simulation: accumulate forces, then integrate
with force scale 0.3 and damping 0.7. -/
noncomputable def clusterStep (citems : List ContentItem) (c : Point)
    (clusterRadius : ℝ) (ps : List ClusterPos) : List ClusterPos :=
  let forces := clusterForces citems c clusterRadius ps
  (List.range ps.length).map (fun i =>
    let p := ps.getD i default
    let f := forces.getD i (0, 0)
    let vx := (p.vx + f.1 * 0.3) * 0.7
    let vy := (p.vy + f.2 * 0.3) * 0.7
    { x := p.x + vx
      y := p.y + vy
      vx := vx
      vy := vy })

/-- Processing of one collection (index, key) in the `collections.forEach`
loop: a single-item group is placed exactly at the collection center; a
multi-item group is seeded with jitter (advancing the random counter by two
draws per item) and run through 100 iterations of the mini simulation.  The
state is the positions map together with the random-stream counter. -/
noncomputable def layoutCollectionStep (rand : ℕ → ℝ) (items : List ContentItem)
    (st : (String → Option Point) × ℕ) (p : ℕ × String) :
    (String → Option Point) × ℕ :=
  let pos := st.1
  let k := st.2
  let center := collectionCenter p.1
  let citems := primaryGroup items p.2
  if citems.length = 1 then
    (fun id => if id = (citems.getD 0 default).id then some center else pos id, k)
  else
    let cr := clusterRadiusOf citems.length
    let ps0 := clusterInit rand k center cr citems.length
    let psN := (fun ps => clusterStep citems center cr ps)^[100] ps0
    let pos1 := (List.range citems.length).foldl
      (fun pf i =>
        fun id => if id = (citems.getD i default).id then
          some ⟨(psN.getD i default).x, (psN.getD i default).y⟩ else pf id)
      pos
    (pos1, k + 2 * citems.length)

/-- The positions map and random counter after the `collections.forEach`
loop. -/
noncomputable def layoutCollectionsPass (rand : ℕ → ℝ) (items : List ContentItem) :
    (String → Option Point) × ℕ :=
  ((collectionKeysOf items).enum).foldl (layoutCollectionStep rand items)
    ((fun _ => none : String → Option Point), 0)

/-- The positions map after additionally scattering the no-collection items
near the origin (two random draws each). -/
noncomputable def layoutFinalPositions (rand : ℕ → ℝ) (items : List ContentItem) :
    String → Option Point :=
  let st := layoutCollectionsPass rand items
  let noCollection := noCollectionOf items
  (List.range noCollection.length).foldl
    (fun pf i =>
      fun id => if id = (noCollection.getD i default).id then
        some ⟨(rand (st.2 + 2 * i) - 0.5) * 8, (rand (st.2 + 2 * i + 1) - 0.5) * 8⟩
      else pf id)
    st.1

/-- Mirror of `generateSimilarityBasedLayout` (`similarityLayout.ts`),
parameterized by the `Math.random()` stream. -/
noncomputable def generateSimilarityBasedLayout (rand : ℕ → ℝ)
    (items : List ContentItem) : List Point :=
  if items.length = 0 then []
  else if items.length = 1 then [⟨0, 0⟩]
  else
    items.map (fun it => ((layoutFinalPositions rand items) it.id).getD ⟨0, 0⟩)

/-- The position the layout assigns to one input item: the origin when the
input is the one-item list (early return), otherwise the item's entry in the
final positions map (defaulting to the origin), exactly the lookup performed
by the final `items.map` of `generateSimilarityBasedLayout`. -/
noncomputable def assignedPosition (rand : ℕ → ℝ) (items : List ContentItem)
    (it : ContentItem) : Point :=
  if items.length = 1 then ⟨0, 0⟩
  else ((layoutFinalPositions rand items) it.id).getD ⟨0, 0⟩

/-- Claim C5: `generateSimilarityBasedLayout` returns `[]` on the empty
input, `[{x:0,y:0}]` on a single-item input, and for every input (and every
random stream) exactly one position per item, in the same order as the
input items: the output has the input's length, and its `n`-th entry is
precisely the position assigned to the `n`-th input item. -/
theorem layout_order_preserving :
    (∀ rand : ℕ → ℝ, generateSimilarityBasedLayout rand [] = []) ∧
    (∀ (rand : ℕ → ℝ) (item : ContentItem),
      generateSimilarityBasedLayout rand [item] = [⟨0, 0⟩]) ∧
    (∀ (rand : ℕ → ℝ) (items : List ContentItem),
      (generateSimilarityBasedLayout rand items).length = items.length) ∧
    (∀ (rand : ℕ → ℝ) (items : List ContentItem) (n : ℕ),
      (generateSimilarityBasedLayout rand items).get? n =
        (items.get? n).map (assignedPosition rand items)) := by
  refine ⟨fun rand => rfl, fun rand item => rfl, fun rand items => ?_, ?_⟩
  · unfold generateSimilarityBasedLayout
    split
    · rename_i h
      simp [h]
    · split
      · rename_i h
        simp [h]
      · simp
  · intro rand items n
    unfold generateSimilarityBasedLayout
    split
    · rename_i h
      rw [List.length_eq_zero.1 h]
      rfl
    · split
      · rename_i h
        rcases List.length_eq_one.1 h with ⟨a, ha⟩
        subst ha
        cases n with
        | zero => simp [assignedPosition]
        | succ m => rfl
      · rename_i h0 h1
        rw [List.get?_map]
        cases hn : items.get? n with
        | none => rfl
        | some it => simp [assignedPosition, h1]

/-! ### Facts about the layout generator -/

lemma getD_mem_of_lt {α : Type} [Inhabited α] {l : List α} {i : ℕ}
    (h : i < l.length) : l.getD i default ∈ l := by
  rw [List.getD_eq_getElem l default h]
  exact List.getElem_mem h

lemma foldl_fun_update_ne (keyOf : ℕ → String) (valOf : ℕ → Point)
    (l : List ℕ) (pf : String → Option Point) (x : String)
    (h : ∀ i ∈ l, keyOf i ≠ x) :
    (l.foldl (fun pf i => fun id => if id = keyOf i then some (valOf i) else pf id) pf) x
      = pf x := by
  induction l generalizing pf with
  | nil => rfl
  | cons i l ih =>
    simp only [List.foldl_cons]
    rw [ih _ (fun j hj => h j (List.mem_cons_of_mem _ hj))]
    exact if_neg (fun hh => h i (List.mem_cons_self _ _) hh.symm)

lemma layoutCollectionStep_preserves (rand : ℕ → ℝ) (items : List ContentItem)
    (st : (String → Option Point) × ℕ) (q : ℕ × String) (x : String)
    (hx : x ∉ (primaryGroup items q.2).map (fun j => j.id)) :
    (layoutCollectionStep rand items st q).1 x = st.1 x := by
  unfold layoutCollectionStep
  dsimp only []
  split
  · rename_i hlen1
    refine if_neg (fun hh => hx ?_)
    have hmem : (primaryGroup items q.2).getD 0 default ∈ primaryGroup items q.2 :=
      getD_mem_of_lt (by omega)
    exact hh ▸ List.mem_map_of_mem _ hmem
  · apply foldl_fun_update_ne
    intro i hi
    have hmem : (primaryGroup items q.2).getD i default ∈ primaryGroup items q.2 :=
      getD_mem_of_lt (List.mem_range.1 hi)
    exact fun hh => hx (hh ▸ List.mem_map_of_mem _ hmem)

lemma layoutCollectionStep_sets_center (rand : ℕ → ℝ) (items : List ContentItem)
    (st : (String → Option Point) × ℕ) (idx : ℕ) (K : String) (it : ContentItem)
    (hgroup : primaryGroup items K = [it]) :
    (layoutCollectionStep rand items st (idx, K)).1 it.id = some (collectionCenter idx) := by
  unfold layoutCollectionStep
  dsimp only []
  rw [hgroup]
  simp

lemma layout_fold_keeps_center (rand : ℕ → ℝ) (items : List ContentItem)
    (it : ContentItem) (K : String) (idx : ℕ)
    (hgroup : primaryGroup items K = [it]) :
    ∀ (l : List (ℕ × String)) (st : (String → Option Point) × ℕ),
      st.1 it.id = some (collectionCenter idx) →
      (∀ q ∈ l, q = (idx, K) ∨ it.id ∉ (primaryGroup items q.2).map (fun j => j.id)) →
      ((l.foldl (layoutCollectionStep rand items) st).1) it.id
        = some (collectionCenter idx) := by
  intro l
  induction l with
  | nil => intro st h _; simpa using h
  | cons q l ih =>
    intro st h hq
    simp only [List.foldl_cons]
    apply ih
    · rcases hq q (List.mem_cons_self _ _) with hqK | hnot
      · subst hqK
        exact layoutCollectionStep_sets_center rand items st idx K it hgroup
      · rw [layoutCollectionStep_preserves rand items st q it.id hnot]
        exact h
    · intro q' hq'
      exact hq q' (List.mem_cons_of_mem _ hq')

lemma layout_fold_sets_center (rand : ℕ → ℝ) (items : List ContentItem)
    (it : ContentItem) (K : String) (idx : ℕ)
    (hgroup : primaryGroup items K = [it]) :
    ∀ (l : List (ℕ × String)) (st : (String → Option Point) × ℕ),
      (idx, K) ∈ l →
      (∀ q ∈ l, q.2 = K → q = (idx, K)) →
      (∀ q ∈ l, q.2 ≠ K → it.id ∉ (primaryGroup items q.2).map (fun j => j.id)) →
      ((l.foldl (layoutCollectionStep rand items) st).1) it.id
        = some (collectionCenter idx) := by
  intro l
  induction l with
  | nil => intro st h; simp at h
  | cons q l ih =>
    intro st hmem huniq hother
    simp only [List.foldl_cons]
    by_cases hq : q = (idx, K)
    · subst hq
      apply layout_fold_keeps_center rand items it K idx hgroup
      · exact layoutCollectionStep_sets_center rand items st idx K it hgroup
      · intro q' hq'
        by_cases hqK : q'.2 = K
        · exact Or.inl (huniq q' (List.mem_cons_of_mem _ hq') hqK)
        · exact Or.inr (hother q' (List.mem_cons_of_mem _ hq') hqK)
    · have hmem' : (idx, K) ∈ l := by
        rcases List.mem_cons.1 hmem with h | h
        · exact absurd h.symm hq
        · exact h
      exact ih _ hmem' (fun q' h' => huniq q' (List.mem_cons_of_mem _ h'))
        (fun q' h' => hother q' (List.mem_cons_of_mem _ h'))

/-- Claim C6 (amended): in `generateSimilarityBasedLayout`, for every input
list of at least two items (with distinct ids), every item that is the only
member of its primary-collection group is placed exactly at that
collection's spiral center `collectionCenter idx` (angle `idx·2.4`, radius
`15 + √idx·8`), where `idx` is the group's index in first-occurrence order.
For a single-item input list this fails: the function returns `[{x:0,y:0}]`
before any collection processing. -/
theorem sole_member_placed_at_collection_center
    (rand : ℕ → ℝ) (items : List ContentItem) (it : ContentItem) (K : String)
    (idx n : ℕ)
    (hlen : 2 ≤ items.length)
    (hnodup : (items.map (fun j => j.id)).Nodup)
    (hgroup : primaryGroup items K = [it])
    (hidx : (collectionKeysOf items).get? idx = some K)
    (hn : items.get? n = some it) :
    (generateSimilarityBasedLayout rand items).get? n = some (collectionCenter idx) := by
  have hitmemK : it ∈ primaryGroup items K := by
    rw [hgroup]; exact List.mem_cons_self _ _
  have hitK : it.collectionId = some K := by
    have := (List.mem_filter.1 hitmemK).2
    exact of_decide_eq_true this
  have hitmem : it ∈ items := (List.mem_filter.1 hitmemK).1
  unfold generateSimilarityBasedLayout
  split
  · rename_i h; exact absurd h (by omega)
  · split
    · rename_i h; exact absurd h (by omega)
    · rw [List.get?_map, hn]
      simp only [Option.map_some']
      have hfinal : layoutFinalPositions rand items it.id
          = (layoutCollectionsPass rand items).1 it.id := by
        unfold layoutFinalPositions
        apply foldl_fun_update_ne
        intro i hi
        have hmem : (noCollectionOf items).getD i default ∈ noCollectionOf items :=
          getD_mem_of_lt (List.mem_range.1 hi)
        have hnone : ((noCollectionOf items).getD i default).collectionId = none :=
          of_decide_eq_true (List.mem_filter.1 hmem).2
        intro hh
        have heq : (noCollectionOf items).getD i default = it :=
          List.inj_on_of_nodup_map hnodup (List.mem_filter.1 hmem).1 hitmem hh
        rw [heq, hitK] at hnone
        exact Option.noConfusion hnone
      have hpass : (layoutCollectionsPass rand items).1 it.id
          = some (collectionCenter idx) := by
        unfold layoutCollectionsPass
        apply layout_fold_sets_center rand items it K idx hgroup
        · exact List.mem_enum_iff_get?.2 hidx
        · intro q hq hqK
          have hq' : (collectionKeysOf items).get? q.1 = some q.2 :=
            List.mem_enum_iff_get?.1 hq
          rw [hqK] at hq'
          have hlt : q.1 < (collectionKeysOf items).length := by
            by_contra hge
            rw [List.get?_eq_none.2 (le_of_not_lt hge)] at hq'
            exact Option.noConfusion hq'
          have : q.1 = idx :=
            List.get?_inj hlt (nodup_jsSet _) (hq'.trans hidx.symm)
          rw [Prod.ext_iff]
          exact ⟨this, hqK⟩
        · intro q hq hqK hin
          rcases List.mem_map.1 hin with ⟨m, hmmem, hmid⟩
          have hmit : m = it :=
            List.inj_on_of_nodup_map hnodup (List.mem_filter.1 hmmem).1 hitmem hmid
          have : m.collectionId = some q.2 :=
            of_decide_eq_true (List.mem_filter.1 hmmem).2
          rw [hmit, hitK] at this
          exact hqK (Option.some_inj.1 this).symm
      rw [hfinal, hpass]
      rfl

/-- A single item with a primary collection. -/
def soloCollectionItem : ContentItem :=
  { id := "solo", tags := none, aiTags := none, collectionId := some "c-solo",
    collection_ids := none, embedding := none, averageColor := none,
    created_at := none }

/-- Claim C6, counterexample: for the one-item input whose item is the sole
member of its collection group, the layout returns `{x:0,y:0}` (the
single-item early return), while the spiral center of collection index 0 is
`{x:15,y:0}` — so the claim fails when the input list has exactly one item. -/
theorem single_item_layout_not_at_center :
    generateSimilarityBasedLayout (fun _ => 0) [soloCollectionItem] = [⟨0, 0⟩] ∧
    collectionCenter 0 = ⟨15, 0⟩ ∧ (⟨15, 0⟩ : Point) ≠ (⟨0, 0⟩ : Point) := by
  refine ⟨rfl, ?_, ?_⟩
  · unfold collectionCenter
    simp
  · intro h
    have hx := congrArg Point.x h
    norm_num at hx

/-- First witness item: sole member of collection `col-1`. -/
def witnessItemA : ContentItem :=
  { id := "w-a", tags := none, aiTags := none, collectionId := some "col-1",
    collection_ids := none, embedding := none, averageColor := none,
    created_at := none }

/-- Second witness item: sole member of collection `col-2`. -/
def witnessItemB : ContentItem :=
  { id := "w-b", tags := none, aiTags := none, collectionId := some "col-2",
    collection_ids := none, embedding := none, averageColor := none,
    created_at := none }

/-- Witness for the amended C6: in a two-item input with two singleton
collections, the first item lands exactly at the spiral center of index 0. -/
theorem sole_member_placed_at_collection_center_witness :
    (generateSimilarityBasedLayout (fun _ => 0) [witnessItemA, witnessItemB]).get? 0
      = some (collectionCenter 0) :=
  sole_member_placed_at_collection_center (fun _ => 0) [witnessItemA, witnessItemB]
    witnessItemA "col-1" 0 0 (by norm_num) (by decide) (by decide) (by decide) (by decide)

/-! ### Density-adaptive normalizer (`applyDensityAdaptiveScaling`) -/

noncomputable section

open scoped Classical

/-- Neighbor count of point `i`: the number of other points within
`densityRadius` (the `densities` loop of `applyDensityAdaptiveScaling`). -/
noncomputable def densityCount (coords : List Point) (densityRadius : ℝ) (i : ℕ) : ℕ :=
  ((List.range coords.length).filter (fun j =>
    j ≠ i ∧
      Real.sqrt (((coords.getD j default).x - (coords.getD i default).x) *
          ((coords.getD j default).x - (coords.getD i default).x) +
        ((coords.getD j default).y - (coords.getD i default).y) *
          ((coords.getD j default).y - (coords.getD i default).y)) < densityRadius)).length

/-- The scaled (not yet re-centered) point set: each point multiplied by
`compressionFactor + (1 − compressionFactor) · normalizedDensity`. -/
noncomputable def densityScaled (coords : List Point)
    (densityRadius compressionFactor : ℝ) : List Point :=
  let densities := (List.range coords.length).map (densityCount coords densityRadius)
  let maxDensity := densities.foldr max 0
  let normalizedDensities := densities.map (fun d =>
    if 0 < maxDensity then (d : ℝ) / (maxDensity : ℝ) else 0)
  (List.range coords.length).map (fun i =>
    let coord := coords.getD i default
    let scaleFactor := compressionFactor +
      (1 - compressionFactor) * (normalizedDensities.getD i 0)
    Point.mk (coord.x * scaleFactor) (coord.y * scaleFactor))

/-- Mirror of `applyDensityAdaptiveScaling` (`graphLayout` module): density
scaling followed by re-centering at the centroid of the scaled set; defaults
`densityRadius = 15`, `compressionFactor = 0.4`. -/
noncomputable def applyDensityAdaptiveScaling (coords : List Point)
    (densityRadius : ℝ := 15) (compressionFactor : ℝ := 0.4) : List Point :=
  if coords.length = 0 then coords
  else if coords.length = 1 then [⟨0, 0⟩]
  else
    let scaled := densityScaled coords densityRadius compressionFactor
    let meanX := (scaled.map (fun c => c.x)).sum / (scaled.length : ℝ)
    let meanY := (scaled.map (fun c => c.y)).sum / (scaled.length : ℝ)
    scaled.map (fun c => ⟨c.x - meanX, c.y - meanY⟩)

/-- Centroid of a point list (mean x, mean y). -/
noncomputable def centroid (ps : List Point) : Point :=
  ⟨(ps.map (fun p => p.x)).sum / (ps.length : ℝ),
   (ps.map (fun p => p.y)).sum / (ps.length : ℝ)⟩

end

lemma sum_map_sub_const (l : List ℝ) (m : ℝ) :
    (l.map (fun t => t - m)).sum = l.sum - l.length * m := by
  induction l with
  | nil => simp
  | cons x xs ih =>
    simp only [List.map_cons, List.sum_cons, List.length_cons, ih]
    push_cast
    ring

/-- Claim C8: `applyDensityAdaptiveScaling` scales each point by
`compressionFactor + (1−compressionFactor)·normalizedDensity` and subtracts
the centroid of the scaled set, so every non-empty input yields an output
with centroid exactly `(0,0)`, a single-point input maps to the origin, and
for two or more points the output is literally the scaled set re-centered at
its own centroid. -/
theorem density_scaling_centers_output (coords : List Point) (r cf : ℝ)
    (h : coords ≠ []) :
    centroid (applyDensityAdaptiveScaling coords r cf) = ⟨0, 0⟩ ∧
    (∀ p : Point, applyDensityAdaptiveScaling [p] r cf = [⟨0, 0⟩]) ∧
    (2 ≤ coords.length → applyDensityAdaptiveScaling coords r cf =
      (densityScaled coords r cf).map (fun c =>
        ⟨c.x - (centroid (densityScaled coords r cf)).x,
         c.y - (centroid (densityScaled coords r cf)).y⟩)) := by
  refine ⟨?_, fun p => rfl, fun h2 => ?_⟩
  case refine_2 =>
    unfold applyDensityAdaptiveScaling
    rw [if_neg (by omega), if_neg (by omega)]
    rfl
  unfold applyDensityAdaptiveScaling
  split
  · rename_i h0
    exact absurd (List.length_eq_zero.1 h0) h
  · split
    · unfold centroid
      norm_num
    · rename_i h0 h1
      set scaled := densityScaled coords r cf with hscaled
      have hlen : scaled.length = coords.length := by
        rw [hscaled]
        unfold densityScaled
        simp
      have hnz : ((scaled.length : ℝ)) ≠ 0 := by
        rw [hlen]
        exact_mod_cast h0
    -- x and y coordinates of the centroid both vanish
      unfold centroid
      have hx : ((scaled.map (fun c =>
          (⟨c.x - (scaled.map (fun c => c.x)).sum / (scaled.length : ℝ),
            c.y - (scaled.map (fun c => c.y)).sum / (scaled.length : ℝ)⟩ : Point))).map
            (fun p => p.x)).sum = 0 := by
        rw [List.map_map]
        have : ((fun p : Point => p.x) ∘ (fun c : Point =>
            (⟨c.x - (scaled.map (fun c => c.x)).sum / (scaled.length : ℝ),
              c.y - (scaled.map (fun c => c.y)).sum / (scaled.length : ℝ)⟩ : Point)))
            = fun c => c.x - (scaled.map (fun c => c.x)).sum / (scaled.length : ℝ) := rfl
        rw [this]
        have hcomp : (fun c : Point =>
            c.x - (scaled.map (fun c => c.x)).sum / (scaled.length : ℝ))
            = (fun t => t - (scaled.map (fun c => c.x)).sum / (scaled.length : ℝ)) ∘
              (fun c : Point => c.x) := rfl
        rw [hcomp, ← List.map_map, sum_map_sub_const]
        rw [List.length_map]
        field_simp
      have hy : ((scaled.map (fun c =>
          (⟨c.x - (scaled.map (fun c => c.x)).sum / (scaled.length : ℝ),
            c.y - (scaled.map (fun c => c.y)).sum / (scaled.length : ℝ)⟩ : Point))).map
            (fun p => p.y)).sum = 0 := by
        rw [List.map_map]
        have : ((fun p : Point => p.y) ∘ (fun c : Point =>
            (⟨c.x - (scaled.map (fun c => c.x)).sum / (scaled.length : ℝ),
              c.y - (scaled.map (fun c => c.y)).sum / (scaled.length : ℝ)⟩ : Point)))
            = fun c => c.y - (scaled.map (fun c => c.y)).sum / (scaled.length : ℝ) := rfl
        rw [this]
        have hcomp : (fun c : Point =>
            c.y - (scaled.map (fun c => c.y)).sum / (scaled.length : ℝ))
            = (fun t => t - (scaled.map (fun c => c.y)).sum / (scaled.length : ℝ)) ∘
              (fun c : Point => c.y) := rfl
        rw [hcomp, ← List.map_map, sum_map_sub_const]
        rw [List.length_map]
        field_simp
      simp only [hx, hy]
      norm_num

/-- Witness for C8, at the two-point input `[(0,0), (3,4)]` with the default
radius and compression factor. -/
theorem density_scaling_centers_output_witness :
    centroid (applyDensityAdaptiveScaling [⟨0, 0⟩, ⟨3, 4⟩] 15 0.4) = ⟨0, 0⟩ ∧
    (∀ p : Point, applyDensityAdaptiveScaling [p] 15 0.4 = [⟨0, 0⟩]) ∧
    (2 ≤ ([⟨0, 0⟩, ⟨3, 4⟩] : List Point).length →
      applyDensityAdaptiveScaling [⟨0, 0⟩, ⟨3, 4⟩] 15 0.4 =
      (densityScaled [⟨0, 0⟩, ⟨3, 4⟩] 15 0.4).map (fun c =>
        ⟨c.x - (centroid (densityScaled [⟨0, 0⟩, ⟨3, 4⟩] 15 0.4)).x,
         c.y - (centroid (densityScaled [⟨0, 0⟩, ⟨3, 4⟩] 15 0.4)).y⟩)) :=
  density_scaling_centers_output [⟨0, 0⟩, ⟨3, 4⟩] 15 0.4 (by simp)
